import Mathlib

/-!
Shallow embedding of the "acompanhamento" (order-tracking) microservice:
the order/payment status enums and transition table (`app/domain/order_state.py`),
the domain models and their pydantic validators (`app/models/acompanhamento.py`),
the domain service (`app/domain/acompanhamento_service.py`), the event adapter
(`app/adapters/event_adapter.py`) and the payment-event HTTP endpoint
(`app/api/v1/acompanhamento.py`), together with theorems settling the
specification claims about them.

Conventions of the embedding:
* Python `datetime` values are opaque to the domain logic; they are modelled as
  a wrapper around their ISO string, and `datetime.now()` becomes an explicit
  `now` parameter.
* The repository (an external collaborator used through the interface
  `criar` / `buscar_por_id_pedido` / `atualizar`) is modelled as a list of
  records; service entry points return the produced value, the resulting store,
  and a flag recording whether `criar` / `atualizar` was invoked, so that
  "the store is not updated" is a provable statement.
* Python exceptions (`ValueError`) become `Except` errors; pydantic
  field-validator failures become `Except String` in explicit smart
  constructors.
-/

namespace Acomp

/-- ISO-timestamp wrapper standing for Python `datetime` values. -/
structure DateTime where
  iso : String
deriving DecidableEq, Repr

/-- Python `str.upper()` (ASCII case mapping suffices for the category
strings); char-by-char so that it reduces definitionally. -/
def strToUpper (s : String) : String := ⟨s.data.map Char.toUpper⟩

/-! ### `app/domain/order_state.py` -/

/-- `class StatusPedido(str, Enum)` — order statuses. -/
inductive StatusPedido where
  | RECEBIDO
  | EM_PREPARACAO
  | PRONTO
  | FINALIZADO
deriving DecidableEq, Repr, BEq

/-- The string value of each `StatusPedido` member. -/
def StatusPedido.value : StatusPedido → String
  | .RECEBIDO => "Recebido"
  | .EM_PREPARACAO => "Em preparação"
  | .PRONTO => "Pronto"
  | .FINALIZADO => "Finalizado"

/-- `class StatusPagamento(str, Enum)` — payment statuses. -/
inductive StatusPagamento where
  | PENDENTE
  | PAGO
  | FALHOU
deriving DecidableEq, Repr, BEq

/-- The string value of each `StatusPagamento` member. -/
def StatusPagamento.value : StatusPagamento → String
  | .PENDENTE => "pendente"
  | .PAGO => "pago"
  | .FALHOU => "falhou"

/-- `StatusPagamento(raw)` — enum lookup by value, `none` for `ValueError`. -/
def StatusPagamento.fromValue : String → Option StatusPagamento
  | "pendente" => some .PENDENTE
  | "pago" => some .PAGO
  | "falhou" => some .FALHOU
  | _ => none

/-- `StatusPedido(raw)` — enum lookup by value, `none` for `ValueError`. -/
def StatusPedido.fromValue : String → Option StatusPedido
  | "Recebido" => some .RECEBIDO
  | "Em preparação" => some .EM_PREPARACAO
  | "Pronto" => some .PRONTO
  | "Finalizado" => some .FINALIZADO
  | _ => none

/-- `OrderStateManager.VALID_TRANSITIONS` — the dict maps every status, so the
`current_status not in cls.VALID_TRANSITIONS` guard and the `.get` default are
never taken and the map is total. -/
def VALID_TRANSITIONS : StatusPedido → List StatusPedido
  | .RECEBIDO => [.EM_PREPARACAO]
  | .EM_PREPARACAO => [.PRONTO]
  | .PRONTO => [.FINALIZADO]
  | .FINALIZADO => []

/-- `OrderStateManager.can_transition`. -/
def can_transition (current_status new_status : StatusPedido) : Bool :=
  (VALID_TRANSITIONS current_status).contains new_status

/-- `OrderStateManager.get_next_valid_states`. -/
def get_next_valid_states (current_status : StatusPedido) : List StatusPedido :=
  VALID_TRANSITIONS current_status

/-- `OrderStateManager.should_update_from_payment`. -/
def should_update_from_payment (payment_status : StatusPagamento) : Bool :=
  payment_status == StatusPagamento.PAGO

/-- `get_estimated_time_minutes` — per-status minute table. -/
def get_estimated_time_minutes : StatusPedido → Nat
  | .RECEBIDO => 5
  | .EM_PREPARACAO => 15
  | .PRONTO => 10
  | .FINALIZADO => 0

/-! ### `app/models/acompanhamento.py` -/

/-- `class ItemPedido(BaseModel)` — a validated line item: positive product id
and positive quantity (validators `validate_id_produto_positive`,
`validate_quantidade_positive`), hence `Nat` fields here.  The model has **no**
category field. -/
structure ItemPedido where
  id_produto : Nat
  quantidade : Nat
deriving DecidableEq, Repr

/-- `class EventoPedido(BaseModel)` — raw field record; the `itens` validator
is the smart constructor `EventoPedido.construct` below. -/
structure EventoPedido where
  id_pedido : Nat
  cpf_cliente : String
  itens : List ItemPedido
  total_pedido : Float
  tempo_estimado : Option String
  status : String
  criado_em : DateTime

/-- `class EventoPagamento(BaseModel)` (models/acompanhamento.py). -/
structure EventoPagamento where
  id_pagamento : Nat
  id_pedido : Nat
  status : StatusPagamento
  criado_em : DateTime

/-- `class Acompanhamento(BaseModel)` — raw field record; the `itens` validator
is the smart constructor `Acompanhamento.construct` below. -/
structure Acompanhamento where
  id_pedido : Nat
  cpf_cliente : String
  status : StatusPedido
  status_pagamento : StatusPagamento
  itens : List ItemPedido
  valor_pago : Option Float
  tempo_estimado : Option String
  atualizado_em : DateTime

/-- `validate_itens_not_empty` — shared pydantic field validator on `itens`. -/
def validate_itens_not_empty (v : List ItemPedido) : Except String (List ItemPedido) :=
  if v.isEmpty then .error "Order must have at least one item" else .ok v

/-- Pydantic construction of `Acompanhamento`, running the `itens` validator. -/
def Acompanhamento.construct (id_pedido : Nat) (cpf_cliente : String)
    (status : StatusPedido) (status_pagamento : StatusPagamento)
    (itens : List ItemPedido) (valor_pago : Option Float)
    (tempo_estimado : Option String) (atualizado_em : DateTime) :
    Except String Acompanhamento := do
  let itens ← validate_itens_not_empty itens
  .ok ⟨id_pedido, cpf_cliente, status, status_pagamento, itens, valor_pago,
    tempo_estimado, atualizado_em⟩

/-- Pydantic construction of `EventoPedido`, running the `itens` validator. -/
def EventoPedido.construct (id_pedido : Nat) (cpf_cliente : String)
    (itens : List ItemPedido) (total_pedido : Float)
    (tempo_estimado : Option String) (status : String) (criado_em : DateTime) :
    Except String EventoPedido := do
  let itens ← validate_itens_not_empty itens
  .ok ⟨id_pedido, cpf_cliente, itens, total_pedido, tempo_estimado, status, criado_em⟩

/-! ### `AcompanhamentoService.calcular_tempo_estimado_por_itens`

The loop body duck-types each item across four shapes (`hasattr "categoria"`,
`hasattr "category"`, `isinstance dict`, anything else); they are the four
constructors of `Item`.  For dict items, a key can be present with value
`None`, which `dict.get` distinguishes from an absent key, hence the
`Option (Option String)` fields. -/

/-- One loop item of `calcular_tempo_estimado_por_itens`, one constructor per
shape-sniffing branch of the source. -/
inductive Item where
  /-- an object with a `categoria` attribute (and possibly `quantidade`) -/
  | objCategoria (categoria : String) (quantidade : Option Nat)
  /-- an object with a `category` attribute (the source then looks only at
  `quantidade` and `quality` for the quantity) -/
  | objCategory (category : String) (quantidade : Option Nat) (quality : Option Nat)
  /-- a dict; category keys can be present-with-`None` (`some none`) -/
  | dict (categoria : Option (Option String)) (category : Option (Option String))
      (quantidade : Option Nat) (quantity : Option Nat)
  /-- any other object: only `quantidade` / `quantity` attributes are read -/
  | plain (quantidade : Option Nat) (quantity : Option Nat)

/-- The `categoria` local variable at the end of the extraction `if`-chain:
`none` for the fallback branch, otherwise the upper-cased category string
(`""` when the dict key is absent or `None`). -/
def Item.extractCategoria : Item → Option String
  | .objCategoria c _ => some (strToUpper c)
  | .objCategory c _ _ => some (strToUpper c)
  | .dict c1 c2 _ _ => some (strToUpper ((c1.getD (c2.getD (some ""))).getD ""))
  | .plain _ _ => none

/-- The `quantidade` local variable at the end of the extraction `if`-chain
(default `1` everywhere; note the `category`-attribute branch consults
`quantidade` then `quality`). -/
def Item.extractQuantidade : Item → Nat
  | .objCategoria _ q => q.getD 1
  | .objCategory _ q ql => q.getD (ql.getD 1)
  | .dict _ _ q qt => q.getD (qt.getD 1)
  | .plain q qt => q.getD (qt.getD 1)

/-- The `tempo_adicional` increment of one loop iteration: the
`if categoria == "LANCHE" ... else` chain of the source. -/
def tempoAdicionalItem (categoria : Option String) (quantidade : Nat) : Nat :=
  if categoria = some "LANCHE" then 5 * quantidade
  else if categoria = some "ACOMPANHAMENTO" then 2 * quantidade
  else if categoria = some "SOBREMESA" then 3 * quantidade
  else if categoria = some "BEBIDA" then 1 * quantidade
  else 3 * quantidade

/-- Python `f"{n:02d}"` for a natural number. -/
def pad2 (n : Nat) : String :=
  if n < 10 then "0" ++ toString n else toString n

/-- The `HH:MM:SS` conversion shared by both calculator entry points:
`horas = total // 60`, `minutos = total % 60`, seconds literal `00`. -/
def formatar_tempo (tempo_total : Nat) : String :=
  pad2 (tempo_total / 60) ++ ":" ++ pad2 (tempo_total % 60) ++ ":00"

/-- `AcompanhamentoService.calcular_tempo_estimado_por_itens`. -/
def calcular_tempo_estimado_por_itens (itens : List Item) : String :=
  let tempo_base := 15
  let tempo_adicional := itens.foldl
    (fun acc item => acc + tempoAdicionalItem item.extractCategoria item.extractQuantidade) 0
  let tempo_total := tempo_base + tempo_adicional
  formatar_tempo tempo_total

/-- `AcompanhamentoService.calcular_tempo_estimado` (by current status). -/
def calcular_tempo_estimado (a : Acompanhamento) : String :=
  formatar_tempo (get_estimated_time_minutes a.status)

/-- An `ItemPedido` model instance as seen by the duck-typed calculator: it has
no `categoria`/`category` attribute and is not a dict, so it reaches the
fallback branch with its `quantidade` attribute. -/
def ItemPedido.asItem (ip : ItemPedido) : Item :=
  .plain (some ip.quantidade) none

/-! Spec-side formulation of the calculator, for the refinement claim C2:
a per-category rate applied to the item's *raw* (un-normalized) category,
matched case-insensitively. -/

/-- Spec-side: the item's category as upstream supplied it, `none` when
missing (absent attribute/key or an explicit `None` value). -/
def Item.rawCategoria : Item → Option String
  | .objCategoria c _ => some c
  | .objCategory c _ _ => some c
  | .dict c1 c2 _ _ => c1.getD (c2.getD none)
  | .plain _ _ => none

/-- Spec-side per-unit minute rate of a category, matched case-insensitively;
any other or missing category rates 3. -/
def specRate : Option String → Nat
  | some c =>
    if strToUpper c = "LANCHE" then 5
    else if strToUpper c = "ACOMPANHAMENTO" then 2
    else if strToUpper c = "BEBIDA" then 1
    else if strToUpper c = "SOBREMESA" then 3
    else 3
  | none => 3

/-- Spec-side total: `15 + Σ rate(category) × quantity`. -/
def specTotalMinutos (itens : List Item) : Nat :=
  15 + (itens.map (fun it => specRate it.rawCategoria * it.extractQuantidade)).sum

/-! ### The repository (Record Store), `app/repository/acompanhamento_repository.py`

Only the interface the service consumes is modelled: records keyed by
`id_pedido`, `criar` inserts, `buscar_por_id_pedido` finds, `atualizar`
replaces the record with the same `id_pedido`. -/

/-- The record store: the sequence of persisted `Acompanhamento` records. -/
structure Store where
  records : List Acompanhamento

/-- `repository.buscar_por_id_pedido`. -/
def buscar_por_id_pedido (s : Store) (id_pedido : Nat) : Option Acompanhamento :=
  s.records.find? (fun a => a.id_pedido == id_pedido)

/-- `repository.criar` — persists a new record. -/
def Store.criar (s : Store) (a : Acompanhamento) : Store :=
  ⟨s.records ++ [a]⟩

/-- `repository.atualizar` — replaces the record with the same `id_pedido`. -/
def Store.atualizar (s : Store) (a : Acompanhamento) : Store :=
  ⟨s.records.map (fun r => if r.id_pedido == a.id_pedido then a else r)⟩

/-! ### `app/domain/acompanhamento_service.py` -/

/-- Python `evento.tempo_estimado or calc` — `or` also falls through on a
present-but-empty string (falsy). -/
def orFalsy (tempo_estimado : Option String) (calculado : String) : String :=
  match tempo_estimado with
  | some t => if t = "" then calculado else t
  | none => calculado

/-- Outcome of `AcompanhamentoService.processar_evento_pedido`: the returned
record (or the pydantic validation error the `Acompanhamento(...)` call would
raise), the resulting store, and whether `repository.criar` was invoked. -/
structure PedidoResult where
  result : Except String Acompanhamento
  store : Store
  criarCalled : Bool

/-- `AcompanhamentoService.processar_evento_pedido`. -/
def processar_evento_pedido (now : DateTime) (s : Store) (evento : EventoPedido) :
    PedidoResult :=
  match buscar_por_id_pedido s evento.id_pedido with
  | some existing => ⟨.ok existing, s, false⟩
  | none =>
    match Acompanhamento.construct evento.id_pedido evento.cpf_cliente
        .RECEBIDO .PENDENTE evento.itens none
        (some (orFalsy evento.tempo_estimado
          (calcular_tempo_estimado_por_itens (evento.itens.map ItemPedido.asItem))))
        now with
    | .error e => ⟨.error e, s, false⟩
    | .ok acompanhamento => ⟨.ok acompanhamento, s.criar acompanhamento, true⟩

/-- Outcome of `AcompanhamentoService.processar_evento_pagamento`: the
returned record (`none` when no record exists for the order id), the
resulting store, and whether `repository.atualizar` was invoked. -/
structure PagamentoResult where
  result : Option Acompanhamento
  store : Store
  atualizarCalled : Bool

/-- `AcompanhamentoService.processar_evento_pagamento`. -/
def processar_evento_pagamento (now : DateTime) (s : Store) (evento : EventoPagamento) :
    PagamentoResult :=
  match buscar_por_id_pedido s evento.id_pedido with
  | none => ⟨none, s, false⟩
  | some acompanhamento =>
    let a1 := { acompanhamento with status_pagamento := evento.status, atualizado_em := now }
    let a2 :=
      if evento.status = StatusPagamento.PAGO ∧ a1.status = StatusPedido.RECEBIDO then
        { a1 with status := StatusPedido.EM_PREPARACAO }
      else a1
    ⟨some a2, s.atualizar a2, true⟩

/-- The `ValueError`s raised by `atualizar_status_pedido`. -/
inductive ServiceError where
  | notFound (id_pedido : Nat)
  | invalidTransition (de para : StatusPedido)
deriving DecidableEq, Repr

/-- Outcome of `AcompanhamentoService.atualizar_status_pedido`. -/
structure AtualizarResult where
  result : Except ServiceError Acompanhamento
  store : Store
  atualizarCalled : Bool

/-- `AcompanhamentoService.atualizar_status_pedido`. -/
def atualizar_status_pedido (now : DateTime) (s : Store) (id_pedido : Nat)
    (novo_status : StatusPedido) : AtualizarResult :=
  match buscar_por_id_pedido s id_pedido with
  | none => ⟨.error (.notFound id_pedido), s, false⟩
  | some acompanhamento =>
    if can_transition acompanhamento.status novo_status then
      let a1 := { acompanhamento with status := novo_status, atualizado_em := now }
      ⟨.ok a1, s.atualizar a1, true⟩
    else
      ⟨.error (.invalidTransition acompanhamento.status novo_status), s, false⟩

/-! ### `app/adapters/event_adapter.py`

The envelope body is JSON; its `json.loads` is outside the embedding, so the
adapter takes the `event_type` string and the `data` object directly.  `data`
is modelled as a record of optional fields (`none` = key absent); indexing an
absent key (`KeyError`), an unparseable enum value (`ValueError` from the enum
constructor) and a pydantic validation failure are failures distinct from the
unknown-event-type failure.

Two defects of the source module are modelled explicitly rather than
repaired: the module imports `app.domain.models` and `app.domain.enums`,
which do not exist in the repository — the embedding reads the model and enum
classes from where they actually live (`app.models.acompanhamento`,
`app.domain.order_state`) — and the `pedido_criado` branch builds its items
with `ItemPedidoEvent(...)`, a name defined nowhere in the repository and
never imported, so evaluating the comprehension body raises `NameError`
(`AdapterError.nameError`). -/

/-- One entry of `data["produtos"]` in a `pedido_criado` envelope. -/
structure ProdutoData where
  id : Nat
  quantidade : Option Nat
  preco : Float

/-- The `data` object of an envelope, with every field any branch may index. -/
structure EventData where
  id_pagamento : Option Nat
  id_pedido : Option Nat
  status : Option String
  data_criacao : Option String
  cliente : Option String
  produtos : Option (List ProdutoData)
  criado_em : Option String
  atualizado_em : Option String

/-- Failures of `adaptar_evento_generico`: the explicit `ValueError` of the
final `else` branch, the exceptions indexing/parsing the payload raises, and
the `NameError` raised by evaluating an undefined Python name. -/
inductive AdapterError where
  | unknownEventType (tipo : String)
  | missingField (campo : String)
  | invalidEnumValue (valor : String)
  | validationError (msg : String)
  | nameError (nome : String)
deriving DecidableEq, Repr

/-- `datetime.fromisoformat` (format validation not modelled). -/
def fromisoformat (s : String) : DateTime := ⟨s⟩

/-- The typed value the adapter returns alongside the event-type string. -/
inductive AdaptedEvent where
  | pagamento (e : EventoPagamento)
  | pedido (e : EventoPedido)
  | statusAtualizado (id_pedido : Nat) (status : StatusPedido) (atualizado_em : DateTime)

/-- The `"pagamento_confirmado"` branch of `adaptar_evento_generico`: each
`data[...]` index raises `KeyError` when the key is absent, and the
`StatusPagamento(...)` enum construction raises `ValueError` on an
unrecognized value. -/
def adaptar_pagamento_confirmado (data : EventData) : Except AdapterError AdaptedEvent :=
  match data.id_pagamento with
  | none => .error (.missingField "id_pagamento")
  | some id_pagamento =>
  match data.id_pedido with
  | none => .error (.missingField "id_pedido")
  | some id_pedido =>
  match data.status with
  | none => .error (.missingField "status")
  | some status_raw =>
  match StatusPagamento.fromValue status_raw with
  | none => .error (.invalidEnumValue status_raw)
  | some status =>
  match data.data_criacao with
  | none => .error (.missingField "data_criacao")
  | some data_criacao =>
    .ok (.pagamento ⟨id_pagamento, id_pedido, status, fromisoformat data_criacao⟩)

/-- The `"pedido_criado"` branch of `adaptar_evento_generico`.  Arguments are
evaluated in source order: `data["id_pedido"]`, `data["cliente"]`, then the
item comprehension over `data["produtos"]`.  The comprehension body calls
`ItemPedidoEvent(...)`, a name defined nowhere in the repository, so the
first product raises `NameError`; only an empty product list skips the body,
in which case evaluation continues (`sum` of no prices is zero, the status
enum and `criado_em` are parsed) until the pydantic `itens` validator rejects
the empty item list.  The branch is recognized but can never return a typed
order event. -/
def adaptar_pedido_criado (data : EventData) : Except AdapterError AdaptedEvent :=
  match data.id_pedido with
  | none => .error (.missingField "id_pedido")
  | some id_pedido =>
  match data.cliente with
  | none => .error (.missingField "cliente")
  | some cliente =>
  match data.produtos with
  | none => .error (.missingField "produtos")
  | some (_ :: _) => .error (.nameError "ItemPedidoEvent")
  | some [] =>
  match data.status with
  | none => .error (.missingField "status")
  | some status_raw =>
  match StatusPedido.fromValue status_raw with
  | none => .error (.invalidEnumValue status_raw)
  | some status =>
  match data.criado_em with
  | none => .error (.missingField "criado_em")
  | some criado_em =>
  match EventoPedido.construct id_pedido cliente [] 0.0 none
      status.value (fromisoformat criado_em) with
  | .error m => .error (.validationError m)
  | .ok evento => .ok (.pedido evento)

/-- The `"pedido_status_atualizado"` branch of `adaptar_evento_generico`. -/
def adaptar_pedido_status_atualizado (data : EventData) : Except AdapterError AdaptedEvent :=
  match data.id_pedido with
  | none => .error (.missingField "id_pedido")
  | some id_pedido =>
  match data.status with
  | none => .error (.missingField "status")
  | some status_raw =>
  match StatusPedido.fromValue status_raw with
  | none => .error (.invalidEnumValue status_raw)
  | some status =>
  match data.atualizado_em with
  | none => .error (.missingField "atualizado_em")
  | some atualizado_em =>
    .ok (.statusAtualizado id_pedido status (fromisoformat atualizado_em))

/-- `adaptar_evento_generico` — dispatch on `event_type`, returning the pair
`(tipo_evento, typed value)`; unknown types raise
`ValueError("Tipo de evento desconhecido: ...")`; exceptions raised while
building a recognized event propagate unchanged. -/
def adaptar_evento_generico (tipo_evento : String) (data : EventData) :
    Except AdapterError (String × AdaptedEvent) :=
  if tipo_evento = "pagamento_confirmado" then
    match adaptar_pagamento_confirmado data with
    | .error e => .error e
    | .ok ev => .ok (tipo_evento, ev)
  else if tipo_evento = "pedido_criado" then
    match adaptar_pedido_criado data with
    | .error e => .error e
    | .ok ev => .ok (tipo_evento, ev)
  else if tipo_evento = "pedido_status_atualizado" then
    match adaptar_pedido_status_atualizado data with
    | .error e => .error e
    | .ok ev => .ok (tipo_evento, ev)
  else
    .error (.unknownEventType tipo_evento)

/-! ### `POST /evento-pagamento` (`app/api/v1/acompanhamento.py`)

The handler calls `service.processar_evento_pagamento` and then reads
`acompanhamento.id_pedido`, `.status_pagamento.value`, `.atualizado_em` off
the result without a `None` check.  When the service returns `None`, that
attribute access raises `AttributeError`, which only the final
`except Exception` clause catches (it is not a `ValueError`, so the
`"não encontrado" -> 404` mapping is never reached), producing an HTTP 500. -/

/-- An HTTP response of the endpoint: the success payload, or an error status
code with detail. -/
inductive HttpResponse where
  | success (id_pedido : Nat) (status_pagamento : String) (atualizado_em : String)
  | httpError (code : Nat) (detail : String)
deriving DecidableEq, Repr

/-- The `processar_evento_pagamento` endpoint handler. -/
def endpoint_processar_evento_pagamento (now : DateTime) (s : Store)
    (evento : EventoPagamento) : HttpResponse × Store :=
  let r := processar_evento_pagamento now s evento
  match r.result with
  | some acompanhamento =>
    (.success acompanhamento.id_pedido acompanhamento.status_pagamento.value
      acompanhamento.atualizado_em.iso, r.store)
  | none =>
    (.httpError 500 "Erro ao processar evento de pagamento: AttributeError", r.store)

/-! ### Projection helpers and concrete fixtures used by witness theorems -/

/-- The success value of an `Except`, if any. -/
def exceptOk {ε α : Type} : Except ε α → Option α
  | .ok a => some a
  | .error _ => none

/-- The error value of an `Except`, if any. -/
def exceptErr {ε α : Type} : Except ε α → Option ε
  | .error e => some e
  | .ok _ => none

/-- Sample record reused by the witness theorems. -/
def sampleAcomp : Acompanhamento :=
  ⟨7, "11122233344", .RECEBIDO, .PENDENTE, [⟨1, 1⟩], none, some "00:18:00", ⟨"t0"⟩⟩

/-- A one-record store holding `sampleAcomp`. -/
def sampleStore : Store := ⟨[sampleAcomp]⟩

/-- A `PAGO` payment event for `sampleAcomp`'s order. -/
def samplePagamento : EventoPagamento := ⟨99, 7, .PAGO, ⟨"t1"⟩⟩

/-- A sample order-created event (order 500, one item, no upstream estimate). -/
def sampleEventoPedido : EventoPedido :=
  ⟨500, "11122233344", [⟨1, 1⟩], 25.0, none, "criado", ⟨"t0"⟩⟩

/-- An order-created event whose upstream estimate is present but empty. -/
def sampleEventoTempoVazio : EventoPedido :=
  ⟨501, "11122233344", [⟨1, 1⟩], 25.0, some "", "criado", ⟨"t0"⟩⟩

/-- An order-created event for the order already held by `sampleStore`. -/
def sampleEventoPedido7 : EventoPedido :=
  ⟨7, "11122233344", [⟨1, 1⟩], 25.0, none, "criado", ⟨"t0"⟩⟩

/-- A `PAGO` payment event for order 500 (end-to-end scenario). -/
def samplePagamento500 : EventoPagamento := ⟨99, 500, .PAGO, ⟨"t2"⟩⟩

/-- End-to-end scenario, step 1: order-created event for order 500 on the
empty store. -/
def cenarioR1 : PedidoResult := processar_evento_pedido ⟨"t1"⟩ ⟨[]⟩ sampleEventoPedido

/-- End-to-end scenario, step 2: `PAGO` payment event for order 500. -/
def cenarioR2 : PagamentoResult :=
  processar_evento_pagamento ⟨"t2"⟩ cenarioR1.store samplePagamento500

/-- End-to-end scenario, step 3: kitchen update to `PRONTO`. -/
def cenarioR3 : AtualizarResult := atualizar_status_pedido ⟨"t3"⟩ cenarioR2.store 500 .PRONTO

/-- End-to-end scenario, step 4: kitchen update to `FINALIZADO`. -/
def cenarioR4 : AtualizarResult := atualizar_status_pedido ⟨"t4"⟩ cenarioR3.store 500 .FINALIZADO

/-- End-to-end scenario, step 5: attempted update back to `EM_PREPARACAO`. -/
def cenarioR5 : AtualizarResult :=
  atualizar_status_pedido ⟨"t5"⟩ cenarioR4.store 500 .EM_PREPARACAO

/-- Envelope data carrying a well-formed payment payload. -/
def samplePagamentoData : EventData :=
  ⟨some 1, some 10, some "pago", some "2025-07-28T12:00:00", none, none, none, none⟩

/-- Envelope data carrying a well-formed order-created payload with one
product. -/
def samplePedidoData : EventData :=
  ⟨none, some 123, some "Recebido", none, some "12345678900",
    some [⟨1, some 2, 10.0⟩], some "2025-07-28T10:30:00", none⟩

/-- The kind of a typed adapter result, as a tag string. -/
def AdaptedEvent.kind : AdaptedEvent → String
  | .pagamento _ => "pagamento"
  | .pedido _ => "pedido"
  | .statusAtualizado _ _ _ => "statusAtualizado"

/-- The non-empty-items invariant over a whole store. -/
def storeInv (s : Store) : Prop := ∀ a ∈ s.records, a.itens ≠ []

/-! ## Helper lemmas -/

/-- The code's `if/elif` rate chain applied to an upper-cased category equals
the spec-side case-insensitive rate times the quantity. -/
theorem tempoAdicional_upper (c : String) (q : Nat) :
    tempoAdicionalItem (some (strToUpper c)) q = specRate (some c) * q := by
  simp only [tempoAdicionalItem, specRate, Option.some.injEq]
  by_cases h1 : strToUpper c = "LANCHE" <;>
    by_cases h2 : strToUpper c = "ACOMPANHAMENTO" <;>
    by_cases h3 : strToUpper c = "SOBREMESA" <;>
    by_cases h4 : strToUpper c = "BEBIDA" <;>
    simp [h1, h2, h3, h4]

/-- An empty-string category falls through the rate chain to the default. -/
theorem tempoAdicional_vazio (q : Nat) : tempoAdicionalItem (some "") q = 3 * q := by
  simp only [tempoAdicionalItem]
  rw [if_neg (by decide), if_neg (by decide), if_neg (by decide), if_neg (by decide)]

/-- A missing category falls through the rate chain to the default. -/
theorem tempoAdicional_none (q : Nat) : tempoAdicionalItem none q = 3 * q := by
  simp [tempoAdicionalItem]

/-- Per-item agreement between the code's extraction-plus-chain and the
spec-side `rate(category) × quantity`. -/
theorem tempoAdicional_item_eq_spec (it : Item) :
    tempoAdicionalItem it.extractCategoria it.extractQuantidade =
      specRate it.rawCategoria * it.extractQuantidade := by
  cases it with
  | objCategoria c q => exact tempoAdicional_upper c _
  | objCategory c q ql => exact tempoAdicional_upper c _
  | dict c1 c2 q qt =>
    rcases c1 with _ | ⟨_ | c⟩
    · rcases c2 with _ | ⟨_ | c⟩
      · simpa [Item.extractCategoria, Item.rawCategoria, specRate] using
          tempoAdicional_vazio ((Item.dict none none q qt).extractQuantidade)
      · simpa [Item.extractCategoria, Item.rawCategoria, specRate] using
          tempoAdicional_vazio ((Item.dict none (some none) q qt).extractQuantidade)
      · simpa [Item.extractCategoria, Item.rawCategoria] using
          tempoAdicional_upper c ((Item.dict none (some (some c)) q qt).extractQuantidade)
    · simpa [Item.extractCategoria, Item.rawCategoria, specRate] using
        tempoAdicional_vazio ((Item.dict (some none) c2 q qt).extractQuantidade)
    · simpa [Item.extractCategoria, Item.rawCategoria] using
        tempoAdicional_upper c ((Item.dict (some (some c)) c2 q qt).extractQuantidade)
  | plain q qt =>
    simpa [Item.extractCategoria, Item.rawCategoria, specRate] using
      tempoAdicional_none ((Item.plain q qt).extractQuantidade)

/-- The accumulation loop of the calculator as a sum over mapped items. -/
theorem foldl_tempoAdicional (l : List Item) (acc : Nat) :
    l.foldl (fun a it => a + tempoAdicionalItem it.extractCategoria it.extractQuantidade) acc =
      acc + (l.map (fun it => specRate it.rawCategoria * it.extractQuantidade)).sum := by
  induction l generalizing acc with
  | nil => simp
  | cons x xs ih =>
    simp only [List.foldl_cons, List.map_cons, List.sum_cons, ih,
      tempoAdicional_item_eq_spec x]
    omega

/-! ## Claims -/

/-- C1: for every pair of order statuses, `can_transition` returns true iff the
pair is one of Received→InPreparation, InPreparation→Ready, Ready→Completed
(so every self-loop and skip is illegal), and `get_next_valid_states` returns
the empty list for Completed. -/
theorem C1_can_transition_iff :
    (∀ current candidate : StatusPedido,
      can_transition current candidate = true ↔
        ((current = StatusPedido.RECEBIDO ∧ candidate = StatusPedido.EM_PREPARACAO) ∨
         (current = StatusPedido.EM_PREPARACAO ∧ candidate = StatusPedido.PRONTO) ∨
         (current = StatusPedido.PRONTO ∧ candidate = StatusPedido.FINALIZADO))) ∧
    get_next_valid_states StatusPedido.FINALIZADO = [] := by
  refine ⟨fun c n => ?_, rfl⟩
  cases c <;> cases n <;> decide

/-- C2: for every list of line items, `calcular_tempo_estimado_por_itens`
returns the `HH:MM:SS` formatting (hours `total / 60`, minutes `total % 60`,
seconds `00`, each zero-padded to two digits, no cap on hours) of
`15 + Σ rate(category) × quantity` minutes, with the category matched
case-insensitively at rates LANCHE=5, ACOMPANHAMENTO=2, BEBIDA=1, SOBREMESA=3,
any other or missing category at 3, and quantity defaulting to 1 when
unspecified; for the empty list the result is `"00:15:00"`. -/
theorem C2_calcular_tempo_por_itens_spec (itens : List Item) :
    calcular_tempo_estimado_por_itens itens =
      (if specTotalMinutos itens / 60 < 10 then "0" ++ toString (specTotalMinutos itens / 60)
        else toString (specTotalMinutos itens / 60)) ++ ":" ++
      (if specTotalMinutos itens % 60 < 10 then "0" ++ toString (specTotalMinutos itens % 60)
        else toString (specTotalMinutos itens % 60)) ++ ":00" ∧
    calcular_tempo_estimado_por_itens [] = "00:15:00" := by
  constructor
  · unfold calcular_tempo_estimado_por_itens formatar_tempo pad2
    rw [foldl_tempoAdicional]
    simp [specTotalMinutos]
  · rfl

/-- C3: for every payment event, if no record exists for the event's order id
the service returns `none` and never calls the store's update; if a record
exists, the service always sets `status_pagamento` to the event's status and
refreshes `atualizado_em`, sets the order status to `EM_PREPARACAO` iff the
event status is `PAGO` and the current order status is `RECEBIDO` (leaving it
unchanged for every other combination), and persists the updated record. -/
theorem C3_processar_evento_pagamento (now : DateTime) (s : Store) (evento : EventoPagamento) :
    (buscar_por_id_pedido s evento.id_pedido = none →
      (processar_evento_pagamento now s evento).result = none ∧
      (processar_evento_pagamento now s evento).atualizarCalled = false ∧
      (processar_evento_pagamento now s evento).store = s) ∧
    (∀ a, buscar_por_id_pedido s evento.id_pedido = some a →
      ∃ a2, (processar_evento_pagamento now s evento).result = some a2 ∧
        (processar_evento_pagamento now s evento).atualizarCalled = true ∧
        (processar_evento_pagamento now s evento).store = s.atualizar a2 ∧
        a2.status_pagamento = evento.status ∧
        a2.atualizado_em = now ∧
        a2.status = (if evento.status = StatusPagamento.PAGO ∧ a.status = StatusPedido.RECEBIDO
          then StatusPedido.EM_PREPARACAO else a.status) ∧
        a2.id_pedido = a.id_pedido ∧ a2.cpf_cliente = a.cpf_cliente ∧
        a2.itens = a.itens ∧ a2.valor_pago = a.valor_pago ∧
        a2.tempo_estimado = a.tempo_estimado) := by
  constructor
  · intro h
    refine ⟨?_, ?_, ?_⟩ <;> simp [processar_evento_pagamento, h]
  · intro a h
    by_cases hc : evento.status = StatusPagamento.PAGO ∧ a.status = StatusPedido.RECEBIDO
    · refine ⟨{ a with
          status_pagamento := evento.status
          atualizado_em := now
          status := StatusPedido.EM_PREPARACAO },
        ?_, ?_, ?_, rfl, rfl, ?_, rfl, rfl, rfl, rfl, rfl⟩
      · simp [processar_evento_pagamento, h, hc]
      · simp [processar_evento_pagamento, h]
      · simp [processar_evento_pagamento, h, hc]
      · simp [hc]
    · refine ⟨{ a with
          status_pagamento := evento.status
          atualizado_em := now },
        ?_, ?_, ?_, rfl, rfl, ?_, rfl, rfl, rfl, rfl, rfl⟩
      · simp [processar_evento_pagamento, h, hc]
      · simp [processar_evento_pagamento, h]
      · simp [processar_evento_pagamento, h, hc]
      · simp [hc]

/-- Witness for C3: on a concrete store holding order 7 in status `RECEBIDO`,
a `PAGO` payment event advances the record to `EM_PREPARACAO` with payment
status `PAGO`. -/
theorem C3_processar_evento_pagamento_witness :
    (processar_evento_pagamento ⟨"t1"⟩ sampleStore samplePagamento).result.map
      Acompanhamento.status = some StatusPedido.EM_PREPARACAO ∧
    (processar_evento_pagamento ⟨"t1"⟩ sampleStore samplePagamento).result.map
      Acompanhamento.status_pagamento = some StatusPagamento.PAGO := by
  obtain ⟨a2, hr, -, -, hsp, -, hst, -⟩ :=
    (C3_processar_evento_pagamento ⟨"t1"⟩ sampleStore samplePagamento).2 sampleAcomp rfl
  rw [hr]
  constructor
  · simp only [Option.map, hst]
    simp [samplePagamento, sampleAcomp]
  · simp only [Option.map, hsp]
    rfl

/-- C4: `atualizar_status_pedido` fails with not-found when no record exists
for the order id; when a record exists and the requested status is not a legal
next state it fails with invalid-transition leaving the store untouched;
otherwise it sets the status, refreshes `atualizado_em`, persists, and returns
the updated record; in particular on a `FINALIZADO` record every requested
status fails with invalid-transition. -/
theorem C4_atualizar_status_pedido (now : DateTime) (s : Store) (id_pedido : Nat)
    (novo_status : StatusPedido) :
    (buscar_por_id_pedido s id_pedido = none →
      atualizar_status_pedido now s id_pedido novo_status =
        ⟨.error (.notFound id_pedido), s, false⟩) ∧
    (∀ a, buscar_por_id_pedido s id_pedido = some a →
      (can_transition a.status novo_status = false →
        atualizar_status_pedido now s id_pedido novo_status =
          ⟨.error (.invalidTransition a.status novo_status), s, false⟩) ∧
      (can_transition a.status novo_status = true →
        ∃ a1, atualizar_status_pedido now s id_pedido novo_status =
            ⟨.ok a1, s.atualizar a1, true⟩ ∧
          a1.status = novo_status ∧ a1.atualizado_em = now ∧
          a1.id_pedido = a.id_pedido ∧ a1.cpf_cliente = a.cpf_cliente ∧
          a1.status_pagamento = a.status_pagamento ∧ a1.itens = a.itens ∧
          a1.valor_pago = a.valor_pago ∧ a1.tempo_estimado = a.tempo_estimado) ∧
      (a.status = StatusPedido.FINALIZADO →
        atualizar_status_pedido now s id_pedido novo_status =
          ⟨.error (.invalidTransition a.status novo_status), s, false⟩)) := by
  constructor
  · intro h
    unfold atualizar_status_pedido
    rw [h]
  · intro a h
    refine ⟨?_, ?_, ?_⟩
    · intro hc
      simp [atualizar_status_pedido, h, hc]
    · intro hc
      refine ⟨{ a with
          status := novo_status
          atualizado_em := now }, ?_, rfl, rfl, rfl, rfl, rfl, rfl, rfl, rfl⟩
      simp [atualizar_status_pedido, h, hc]
    · intro hfin
      have hc : can_transition a.status novo_status = false := by
        rw [hfin]; rfl
      simp [atualizar_status_pedido, h, hc]

/-- Witness for C4: on the concrete one-record store, updating order 7 from
`RECEBIDO` to `EM_PREPARACAO` succeeds, while on the empty store the update
fails with not-found; on a `FINALIZADO` record the update to `RECEBIDO` fails
with invalid-transition. -/
theorem C4_atualizar_status_pedido_witness :
    ((exceptOk (atualizar_status_pedido ⟨"t2"⟩ sampleStore 7 .EM_PREPARACAO).result).map
      Acompanhamento.status = some StatusPedido.EM_PREPARACAO) ∧
    (atualizar_status_pedido ⟨"t2"⟩ ⟨[]⟩ 7 .EM_PREPARACAO).result =
      .error (.notFound 7) ∧
    (atualizar_status_pedido ⟨"t2"⟩ ⟨[{ sampleAcomp with status := .FINALIZADO }]⟩ 7
        .RECEBIDO).result = .error (.invalidTransition .FINALIZADO .RECEBIDO) := by
  refine ⟨?_, ?_, ?_⟩
  · obtain ⟨a1, heq, hst, -⟩ :=
      ((C4_atualizar_status_pedido ⟨"t2"⟩ sampleStore 7 .EM_PREPARACAO).2 sampleAcomp
        rfl).2.1 rfl
    rw [heq]
    simp [exceptOk, hst]
  · exact congrArg AtualizarResult.result
      ((C4_atualizar_status_pedido ⟨"t2"⟩ ⟨[]⟩ 7 .EM_PREPARACAO).1 rfl)
  · exact congrArg AtualizarResult.result
      (((C4_atualizar_status_pedido ⟨"t2"⟩ ⟨[{ sampleAcomp with status := .FINALIZADO }]⟩ 7
        .RECEBIDO).2 { sampleAcomp with status := .FINALIZADO } rfl).2.2 rfl)

/-- Counterexample to C5 as stated: an order-created event whose
`tempo_estimado` is present but the empty string.  Python's
`evento.tempo_estimado or ...` treats the empty string as falsy, so the code
stores the calculator result, not the event's (present) `tempo_estimado`. -/
theorem C5_counterexample :
    sampleEventoTempoVazio.tempo_estimado = some "" ∧
    (exceptOk (processar_evento_pedido ⟨"t1"⟩ ⟨[]⟩ sampleEventoTempoVazio).result).map
      Acompanhamento.tempo_estimado = some (some "00:18:00") ∧
    some (some "00:18:00") ≠ (some (some "") : Option (Option String)) := by
  exact ⟨rfl, by decide, by decide⟩

/-- C5 (amended): for every order-created event with no existing record (and a
non-empty item list, which the event model's own validator guarantees),
`processar_evento_pedido` persists and returns a new record with status
`RECEBIDO`, payment status `PENDENTE`, the event's items, and
`tempo_estimado` equal to the event's estimate when that is present *and
non-empty*, otherwise the items-based calculator result (the calculator sees
the typed `ItemPedido` items). -/
theorem C5_processar_evento_pedido_novo (now : DateTime) (s : Store) (evento : EventoPedido)
    (hnew : buscar_por_id_pedido s evento.id_pedido = none)
    (hitens : evento.itens ≠ []) :
    ∃ a, processar_evento_pedido now s evento = ⟨.ok a, s.criar a, true⟩ ∧
      a.id_pedido = evento.id_pedido ∧ a.cpf_cliente = evento.cpf_cliente ∧
      a.status = StatusPedido.RECEBIDO ∧ a.status_pagamento = StatusPagamento.PENDENTE ∧
      a.itens = evento.itens ∧ a.valor_pago = none ∧ a.atualizado_em = now ∧
      (∀ t, evento.tempo_estimado = some t → t ≠ "" → a.tempo_estimado = some t) ∧
      ((evento.tempo_estimado = none ∨ evento.tempo_estimado = some "") →
        a.tempo_estimado = some (calcular_tempo_estimado_por_itens
          (evento.itens.map ItemPedido.asItem))) := by
  have hne : evento.itens.isEmpty = false := by
    simpa [List.isEmpty_iff] using hitens
  refine ⟨⟨evento.id_pedido, evento.cpf_cliente, .RECEBIDO, .PENDENTE, evento.itens, none,
      some (orFalsy evento.tempo_estimado
        (calcular_tempo_estimado_por_itens (evento.itens.map ItemPedido.asItem))), now⟩,
    ?_, rfl, rfl, rfl, rfl, rfl, rfl, rfl, ?_, ?_⟩
  · simp only [processar_evento_pedido, hnew, Acompanhamento.construct,
      validate_itens_not_empty, hne, Bool.false_eq_true, if_false]
    rfl
  · intro t ht hne2
    simp [orFalsy, ht, hne2]
  · intro hcase
    rcases hcase with hc | hc <;> simp [orFalsy, hc]

/-- Witness for C5 (amended): on the empty store, the concrete order-500 event
with one item and no upstream estimate yields a persisted record with status
`RECEBIDO` and the calculator's `tempo_estimado`. -/
theorem C5_processar_evento_pedido_novo_witness :
    (exceptOk (processar_evento_pedido ⟨"t1"⟩ ⟨[]⟩ sampleEventoPedido).result).map
      Acompanhamento.status = some StatusPedido.RECEBIDO ∧
    (exceptOk (processar_evento_pedido ⟨"t1"⟩ ⟨[]⟩ sampleEventoPedido).result).map
      Acompanhamento.tempo_estimado = some (some (calcular_tempo_estimado_por_itens
        (sampleEventoPedido.itens.map ItemPedido.asItem))) := by
  obtain ⟨a, heq, -, -, hst, -, -, -, -, -, htempo⟩ :=
    C5_processar_evento_pedido_novo ⟨"t1"⟩ ⟨[]⟩ sampleEventoPedido rfl (by decide)
  rw [heq]
  exact ⟨by simp [exceptOk, hst], by simp [exceptOk, htempo (Or.inl rfl)]⟩

/-- Appending a fresh element to a list in which `find?` fails finds the new
element exactly when it satisfies the predicate. -/
theorem find?_append_singleton {α : Type} (p : α → Bool) (l : List α) (x : α)
    (h : l.find? p = none) :
    (l ++ [x]).find? p = if p x then some x else none := by
  induction l with
  | nil =>
    simp only [List.nil_append, List.find?]
    cases hp : p x <;> simp [hp]
  | cons y ys ih =>
    rw [List.find?_cons] at h
    cases hp : p y
    · rw [List.cons_append, List.find?_cons, hp]
      rw [hp] at h
      exact ih h
    · rw [hp] at h
      simp at h

/-- C6: `processar_evento_pedido` is idempotent in the order id: when a record
already exists it is returned unchanged and `criar` is not invoked, and
processing the same event twice returns the same result both times with
`criar` never invoked on the second run (hence invoked at most once). -/
theorem C6_processar_evento_pedido_idempotente (now1 now2 : DateTime) (s : Store)
    (evento : EventoPedido) :
    (∀ a, buscar_por_id_pedido s evento.id_pedido = some a →
      processar_evento_pedido now1 s evento = ⟨.ok a, s, false⟩) ∧
    (processar_evento_pedido now2 (processar_evento_pedido now1 s evento).store
        evento).result = (processar_evento_pedido now1 s evento).result ∧
    (processar_evento_pedido now2 (processar_evento_pedido now1 s evento).store
        evento).criarCalled = false ∧
    (processar_evento_pedido now2 (processar_evento_pedido now1 s evento).store
        evento).store = (processar_evento_pedido now1 s evento).store := by
  refine ⟨fun a h => by simp [processar_evento_pedido, h], ?_⟩
  cases hb : buscar_por_id_pedido s evento.id_pedido with
  | some a =>
    refine ⟨?_, ?_, ?_⟩ <;> simp [processar_evento_pedido, hb]
  | none =>
    cases hne : evento.itens.isEmpty with
    | true =>
      have hr1 : processar_evento_pedido now1 s evento =
          ⟨.error "Order must have at least one item", s, false⟩ := by
        simp only [processar_evento_pedido, hb, Acompanhamento.construct,
          validate_itens_not_empty, hne, if_true]
        rfl
      rw [hr1]
      refine ⟨?_, ?_, ?_⟩ <;>
        simp only [processar_evento_pedido, hb, Acompanhamento.construct,
          validate_itens_not_empty, hne, if_true] <;> rfl
    | false =>
      have hr1 : processar_evento_pedido now1 s evento =
          ⟨.ok ⟨evento.id_pedido, evento.cpf_cliente, .RECEBIDO, .PENDENTE, evento.itens,
            none, some (orFalsy evento.tempo_estimado (calcular_tempo_estimado_por_itens
              (evento.itens.map ItemPedido.asItem))), now1⟩,
            s.criar ⟨evento.id_pedido, evento.cpf_cliente, .RECEBIDO, .PENDENTE,
              evento.itens, none, some (orFalsy evento.tempo_estimado
                (calcular_tempo_estimado_por_itens (evento.itens.map ItemPedido.asItem))),
              now1⟩, true⟩ := by
        simp only [processar_evento_pedido, hb, Acompanhamento.construct,
          validate_itens_not_empty, hne, Bool.false_eq_true, if_false]
        rfl
      rw [hr1]
      have hfind : buscar_por_id_pedido
          (s.criar ⟨evento.id_pedido, evento.cpf_cliente, .RECEBIDO, .PENDENTE, evento.itens,
            none, some (orFalsy evento.tempo_estimado (calcular_tempo_estimado_por_itens
              (evento.itens.map ItemPedido.asItem))), now1⟩) evento.id_pedido =
          some ⟨evento.id_pedido, evento.cpf_cliente, .RECEBIDO, .PENDENTE, evento.itens,
            none, some (orFalsy evento.tempo_estimado (calcular_tempo_estimado_por_itens
              (evento.itens.map ItemPedido.asItem))), now1⟩ := by
        unfold buscar_por_id_pedido Store.criar
        rw [find?_append_singleton _ _ _ hb]
        simp
      refine ⟨?_, ?_, ?_⟩ <;> simp [processar_evento_pedido, hfind]

/-- Witness for C6: on the concrete one-record store, re-processing an
order-created event for order 7 returns the stored record, and on the empty
store the second processing of the order-500 event does not invoke `criar`. -/
theorem C6_processar_evento_pedido_idempotente_witness :
    processar_evento_pedido ⟨"t1"⟩ sampleStore sampleEventoPedido7 =
      ⟨.ok sampleAcomp, sampleStore, false⟩ ∧
    (processar_evento_pedido ⟨"t2"⟩
      (processar_evento_pedido ⟨"t1"⟩ ⟨[]⟩ sampleEventoPedido).store
      sampleEventoPedido).criarCalled = false := by
  exact ⟨(C6_processar_evento_pedido_idempotente ⟨"t1"⟩ ⟨"t1"⟩ sampleStore
      sampleEventoPedido7).1 sampleAcomp rfl,
    (C6_processar_evento_pedido_idempotente ⟨"t1"⟩ ⟨"t2"⟩ ⟨[]⟩ sampleEventoPedido).2.2.1⟩

/-- Counterexample to C7 as stated: the order-500 record is created with
`tempo_estimado` `"00:18:00"`, not `"00:20:00"` — the typed `ItemPedido`
carried by `EventoPedido` has no category field, so the calculator prices the
single item at the default 3 minutes per unit (15 + 3), not the LANCHE rate
(15 + 5). -/
theorem C7_counterexample :
    (exceptOk cenarioR1.result).map Acompanhamento.tempo_estimado =
      some (some "00:18:00") ∧
    some (some "00:18:00") ≠ (some (some "00:20:00") : Option (Option String)) := by
  exact ⟨by decide, by decide⟩

/-- C7 (amended): the end-to-end scenario for order 500 with one quantity-1
item and no upstream estimate: creation yields status `RECEBIDO` with
`tempo_estimado` `"00:18:00"` (the typed items carry no category, so the item
rates the default 3/unit); the `PAGO` payment event advances the record to
`EM_PREPARACAO` with payment status `PAGO`; the kitchen updates to `PRONTO`
and then `FINALIZADO` succeed; the final attempt to go back to
`EM_PREPARACAO` fails with invalid-transition. -/
theorem C7_cenario_completo :
    (exceptOk cenarioR1.result).map Acompanhamento.status = some StatusPedido.RECEBIDO ∧
    (exceptOk cenarioR1.result).map Acompanhamento.tempo_estimado =
      some (some "00:18:00") ∧
    cenarioR2.result.map Acompanhamento.status = some StatusPedido.EM_PREPARACAO ∧
    cenarioR2.result.map Acompanhamento.status_pagamento = some StatusPagamento.PAGO ∧
    (exceptOk cenarioR3.result).map Acompanhamento.status = some StatusPedido.PRONTO ∧
    (exceptOk cenarioR4.result).map Acompanhamento.status = some StatusPedido.FINALIZADO ∧
    exceptErr cenarioR5.result =
      some (.invalidTransition StatusPedido.FINALIZADO StatusPedido.EM_PREPARACAO) := by
  refine ⟨?_, ?_, ?_, ?_, ?_, ?_, ?_⟩ <;> decide

/-- C10: for every payment-event request whose order id has no record, the
endpoint returns HTTP 500 (the service returns `None` and the handler
dereferences it, raising `AttributeError` into the catch-all clause): it never
returns a success response and never the 404 its docstring announces. -/
theorem C10_endpoint_pagamento_sem_registro (now : DateTime) (s : Store)
    (evento : EventoPagamento)
    (h : buscar_por_id_pedido s evento.id_pedido = none) :
    (endpoint_processar_evento_pagamento now s evento).1 =
      .httpError 500 "Erro ao processar evento de pagamento: AttributeError" ∧
    (∀ i st att, (endpoint_processar_evento_pagamento now s evento).1 ≠
      .success i st att) ∧
    (∀ d, (endpoint_processar_evento_pagamento now s evento).1 ≠ .httpError 404 d) := by
  have hr : (processar_evento_pagamento now s evento).result = none := by
    simp [processar_evento_pagamento, h]
  refine ⟨?_, ?_, ?_⟩
  · simp [endpoint_processar_evento_pagamento, hr]
  · intro i st att
    simp [endpoint_processar_evento_pagamento, hr]
  · intro d
    simp [endpoint_processar_evento_pagamento, hr]

/-- Every outcome of the payment branch of the adapter: a typed payment event
or a key/enum failure — never the unknown-event-type failure. -/
theorem adaptar_pagamento_shape (d : EventData) :
    (∃ e, adaptar_pagamento_confirmado d = .ok (.pagamento e)) ∨
    (∃ c, adaptar_pagamento_confirmado d = .error (.missingField c)) ∨
    (∃ v, adaptar_pagamento_confirmado d = .error (.invalidEnumValue v)) := by
  rcases d with ⟨ip, io, st, dc, cl, pr, ce, ae⟩
  rcases ip with _ | ip
  · exact Or.inr (Or.inl ⟨"id_pagamento", rfl⟩)
  rcases io with _ | io
  · exact Or.inr (Or.inl ⟨"id_pedido", rfl⟩)
  rcases st with _ | st
  · exact Or.inr (Or.inl ⟨"status", rfl⟩)
  rcases hf : StatusPagamento.fromValue st with _ | f
  · refine Or.inr (Or.inr ⟨st, ?_⟩)
    simp only [adaptar_pagamento_confirmado, hf]
  rcases dc with _ | dc
  · refine Or.inr (Or.inl ⟨"data_criacao", ?_⟩)
    simp only [adaptar_pagamento_confirmado, hf]
  · refine Or.inl ⟨⟨ip, io, f, fromisoformat dc⟩, ?_⟩
    simp only [adaptar_pagamento_confirmado, hf]

/-- Every outcome of the order-created branch of the adapter is a failure —
a key failure, the `NameError` on the undefined `ItemPedidoEvent`, an enum
failure, or the empty-items validation failure — and never the
unknown-event-type failure and never a typed payload. -/
theorem adaptar_pedido_shape (d : EventData) :
    (∃ c, adaptar_pedido_criado d = .error (.missingField c)) ∨
    adaptar_pedido_criado d = .error (.nameError "ItemPedidoEvent") ∨
    (∃ v, adaptar_pedido_criado d = .error (.invalidEnumValue v)) ∨
    (∃ m, adaptar_pedido_criado d = .error (.validationError m)) := by
  rcases d with ⟨ip, io, st, dc, cl, pr, ce, ae⟩
  rcases io with _ | io
  · exact Or.inl ⟨"id_pedido", rfl⟩
  rcases cl with _ | cl
  · exact Or.inl ⟨"cliente", rfl⟩
  rcases pr with _ | (_ | ⟨p, ps⟩)
  · exact Or.inl ⟨"produtos", rfl⟩
  · rcases st with _ | st
    · exact Or.inl ⟨"status", rfl⟩
    rcases hf : StatusPedido.fromValue st with _ | f
    · refine Or.inr (Or.inr (Or.inl ⟨st, ?_⟩))
      simp only [adaptar_pedido_criado, hf]
    rcases ce with _ | ce
    · refine Or.inl ⟨"criado_em", ?_⟩
      simp only [adaptar_pedido_criado, hf]
    · refine Or.inr (Or.inr (Or.inr ⟨"Order must have at least one item", ?_⟩))
      simp only [adaptar_pedido_criado, hf]
      rfl
  · exact Or.inr (Or.inl rfl)

/-- Every outcome of the status-update branch of the adapter: a status-update
payload or a key/enum failure — never the unknown-event-type failure. -/
theorem adaptar_status_shape (d : EventData) :
    (∃ i stt att, adaptar_pedido_status_atualizado d = .ok (.statusAtualizado i stt att)) ∨
    (∃ c, adaptar_pedido_status_atualizado d = .error (.missingField c)) ∨
    (∃ v, adaptar_pedido_status_atualizado d = .error (.invalidEnumValue v)) := by
  rcases d with ⟨ip, io, st, dc, cl, pr, ce, ae⟩
  rcases io with _ | io
  · exact Or.inr (Or.inl ⟨"id_pedido", rfl⟩)
  rcases st with _ | st
  · exact Or.inr (Or.inl ⟨"status", rfl⟩)
  rcases hf : StatusPedido.fromValue st with _ | f
  · refine Or.inr (Or.inr ⟨st, ?_⟩)
    simp only [adaptar_pedido_status_atualizado, hf]
  rcases ae with _ | ae
  · refine Or.inr (Or.inl ⟨"atualizado_em", ?_⟩)
    simp only [adaptar_pedido_status_atualizado, hf]
  · refine Or.inl ⟨io, f, fromisoformat ae, ?_⟩
    simp only [adaptar_pedido_status_atualizado, hf]

/-- Replacing a record preserves the store-wide non-empty-items invariant if
the new record also satisfies it. -/
theorem storeInv_atualizar (s : Store) (a2 : Acompanhamento) (hinv : storeInv s)
    (ha2 : a2.itens ≠ []) : storeInv (s.atualizar a2) := by
  intro r hr
  obtain ⟨r0, hr0, hfr⟩ := List.mem_map.mp hr
  subst hfr
  by_cases hid : (r0.id_pedido == a2.id_pedido) = true
  · simpa [hid] using ha2
  · simpa [hid] using hinv r0 hr0

/-- Appending a record preserves the store-wide non-empty-items invariant if
the new record also satisfies it. -/
theorem storeInv_criar (s : Store) (a2 : Acompanhamento) (hinv : storeInv s)
    (ha2 : a2.itens ≠ []) : storeInv (s.criar a2) := by
  intro r hr
  rcases List.mem_append.mp hr with h | h
  · exact hinv r h
  · simp only [List.mem_singleton] at h
    subst h
    exact ha2

/-- The existing-record branch of `processar_evento_pedido` as an equation. -/
theorem processar_pedido_existing (now : DateTime) (s : Store) (evento : EventoPedido)
    (a : Acompanhamento) (h : buscar_por_id_pedido s evento.id_pedido = some a) :
    processar_evento_pedido now s evento = ⟨.ok a, s, false⟩ := by
  simp [processar_evento_pedido, h]

/-- The empty-items branch of `processar_evento_pedido` as an equation. -/
theorem processar_pedido_vazio (now : DateTime) (s : Store) (evento : EventoPedido)
    (hb : buscar_por_id_pedido s evento.id_pedido = none)
    (hne : evento.itens.isEmpty = true) :
    processar_evento_pedido now s evento =
      ⟨.error "Order must have at least one item", s, false⟩ := by
  simp only [processar_evento_pedido, hb, Acompanhamento.construct,
    validate_itens_not_empty, hne, if_true]
  rfl

/-- The creation branch of `processar_evento_pedido` as an equation. -/
theorem processar_pedido_novo (now : DateTime) (s : Store) (evento : EventoPedido)
    (hb : buscar_por_id_pedido s evento.id_pedido = none)
    (hne : evento.itens.isEmpty = false) :
    processar_evento_pedido now s evento =
      ⟨.ok ⟨evento.id_pedido, evento.cpf_cliente, .RECEBIDO, .PENDENTE, evento.itens,
        none, some (orFalsy evento.tempo_estimado (calcular_tempo_estimado_por_itens
          (evento.itens.map ItemPedido.asItem))), now⟩,
      s.criar ⟨evento.id_pedido, evento.cpf_cliente, .RECEBIDO, .PENDENTE, evento.itens,
        none, some (orFalsy evento.tempo_estimado (calcular_tempo_estimado_por_itens
          (evento.itens.map ItemPedido.asItem))), now⟩, true⟩ := by
  simp only [processar_evento_pedido, hb, Acompanhamento.construct,
    validate_itens_not_empty, hne, Bool.false_eq_true, if_false]
  rfl

/-- C9: every order-tracking record has at least one line item: construction
of a record, or of an order-created event, with an empty item list fails
(directly and through `processar_evento_pedido`), and every service operation
preserves the store-wide non-empty-items invariant and only ever returns
records satisfying it. -/
theorem C9_itens_nao_vazio :
    (∀ (id_pedido : Nat) (cpf : String) (st : StatusPedido) (stp : StatusPagamento)
      (valor : Option Float) (tempo : Option String) (atualizado : DateTime),
      Acompanhamento.construct id_pedido cpf st stp [] valor tempo atualizado =
        .error "Order must have at least one item") ∧
    (∀ (id_pedido : Nat) (cpf : String) (total : Float) (tempo : Option String)
      (st : String) (criado : DateTime),
      EventoPedido.construct id_pedido cpf [] total tempo st criado =
        .error "Order must have at least one item") ∧
    (∀ (now : DateTime) (s : Store) (evento : EventoPedido), evento.itens = [] →
      buscar_por_id_pedido s evento.id_pedido = none →
      (processar_evento_pedido now s evento).result =
        .error "Order must have at least one item") ∧
    (∀ (now : DateTime) (s : Store) (evento : EventoPedido), storeInv s →
      storeInv (processar_evento_pedido now s evento).store ∧
      ∀ a, (processar_evento_pedido now s evento).result = .ok a → a.itens ≠ []) ∧
    (∀ (now : DateTime) (s : Store) (evento : EventoPagamento), storeInv s →
      storeInv (processar_evento_pagamento now s evento).store ∧
      ∀ a, (processar_evento_pagamento now s evento).result = some a → a.itens ≠ []) ∧
    (∀ (now : DateTime) (s : Store) (id_pedido : Nat) (novo : StatusPedido), storeInv s →
      storeInv (atualizar_status_pedido now s id_pedido novo).store ∧
      ∀ a, (atualizar_status_pedido now s id_pedido novo).result = .ok a →
        a.itens ≠ []) := by
  refine ⟨fun _ _ _ _ _ _ _ => rfl, fun _ _ _ _ _ _ => rfl, ?_, ?_, ?_, ?_⟩
  · intro now s evento h1 h2
    rw [processar_pedido_vazio now s evento h2 (by simp [h1])]
  · intro now s evento hinv
    cases hb : buscar_por_id_pedido s evento.id_pedido with
    | some a =>
      rw [processar_pedido_existing now s evento a hb]
      refine ⟨hinv, fun a2 hres => ?_⟩
      injection hres with h
      subst h
      exact hinv _ (List.mem_of_find?_eq_some hb)
    | none =>
      cases hne : evento.itens.isEmpty with
      | true =>
        rw [processar_pedido_vazio now s evento hb hne]
        exact ⟨hinv, fun a2 hres => by cases hres⟩
      | false =>
        rw [processar_pedido_novo now s evento hb hne]
        have hit : evento.itens ≠ [] := by
          simpa [List.isEmpty_iff] using hne
        refine ⟨storeInv_criar s _ hinv hit, fun a2 hres => ?_⟩
        injection hres with h
        subst h
        exact hit
  · intro now s evento hinv
    cases hb : buscar_por_id_pedido s evento.id_pedido with
    | none =>
      have hstore : (processar_evento_pagamento now s evento).store = s := by
        simp [processar_evento_pagamento, hb]
      have hres : (processar_evento_pagamento now s evento).result = none := by
        simp [processar_evento_pagamento, hb]
      rw [hstore, hres]
      exact ⟨hinv, fun a2 h => by cases h⟩
    | some a =>
      have hit : a.itens ≠ [] := hinv a (List.mem_of_find?_eq_some hb)
      by_cases hc : evento.status = StatusPagamento.PAGO ∧ a.status = StatusPedido.RECEBIDO
      · have heq : processar_evento_pagamento now s evento =
            ⟨some { a with
                status_pagamento := evento.status
                atualizado_em := now
                status := StatusPedido.EM_PREPARACAO },
              s.atualizar { a with
                status_pagamento := evento.status
                atualizado_em := now
                status := StatusPedido.EM_PREPARACAO }, true⟩ := by
          simp [processar_evento_pagamento, hb, hc]
        rw [heq]
        refine ⟨storeInv_atualizar s _ hinv hit, fun a2 hres => ?_⟩
        injection hres with h
        subst h
        exact hit
      · have heq : processar_evento_pagamento now s evento =
            ⟨some { a with
                status_pagamento := evento.status
                atualizado_em := now },
              s.atualizar { a with
                status_pagamento := evento.status
                atualizado_em := now }, true⟩ := by
          simp [processar_evento_pagamento, hb, hc]
        rw [heq]
        refine ⟨storeInv_atualizar s _ hinv hit, fun a2 hres => ?_⟩
        injection hres with h
        subst h
        exact hit
  · intro now s id_pedido novo hinv
    cases hb : buscar_por_id_pedido s id_pedido with
    | none =>
      have heq : atualizar_status_pedido now s id_pedido novo =
          ⟨.error (.notFound id_pedido), s, false⟩ := by
        unfold atualizar_status_pedido
        rw [hb]
      rw [heq]
      exact ⟨hinv, fun a2 h => by cases h⟩
    | some a =>
      have hit : a.itens ≠ [] := hinv a (List.mem_of_find?_eq_some hb)
      by_cases hc : can_transition a.status novo = true
      · have heq : atualizar_status_pedido now s id_pedido novo =
            ⟨.ok { a with status := novo, atualizado_em := now },
              s.atualizar { a with status := novo, atualizado_em := now }, true⟩ := by
          simp [atualizar_status_pedido, hb, hc]
        rw [heq]
        refine ⟨storeInv_atualizar s _ hinv hit, fun a2 hres => ?_⟩
        injection hres with h
        subst h
        exact hit
      · have heq : atualizar_status_pedido now s id_pedido novo =
            ⟨.error (.invalidTransition a.status novo), s, false⟩ := by
          simp [atualizar_status_pedido, hb, hc]
        rw [heq]
        exact ⟨hinv, fun a2 h => by cases h⟩

/-- Witness for C9: the direct empty-list constructions fail on concrete
arguments, and processing the concrete order-500 event on the empty store
preserves the invariant of the resulting store. -/
theorem C9_itens_nao_vazio_witness :
    Acompanhamento.construct 1 "x" .RECEBIDO .PENDENTE [] none none ⟨"t"⟩ =
      .error "Order must have at least one item" ∧
    EventoPedido.construct 1 "x" [] 0.0 none "criado" ⟨"t"⟩ =
      .error "Order must have at least one item" ∧
    storeInv (processar_evento_pedido ⟨"t1"⟩ ⟨[]⟩ sampleEventoPedido).store := by
  refine ⟨(C9_itens_nao_vazio).1 1 "x" .RECEBIDO .PENDENTE none none ⟨"t"⟩,
    (C9_itens_nao_vazio).2.1 1 "x" 0.0 none "criado" ⟨"t"⟩,
    ((C9_itens_nao_vazio).2.2.2.1 ⟨"t1"⟩ ⟨[]⟩ sampleEventoPedido ?_).1⟩
  intro a h
  cases h

/-- Counterexample to C8 as stated: the `"pagamento_atualizado"`
(payment-updated) envelope type listed in the interface is *not* recognized
by the adapter — even with a fully well-formed payment payload it falls into
the unknown-event-type failure instead of producing a typed payment event. -/
theorem C8_counterexample :
    adaptar_evento_generico "pagamento_atualizado" samplePagamentoData =
      .error (.unknownEventType "pagamento_atualizado") := rfl

/-- C8 (amended): the adapter recognizes exactly the three event types
`pagamento_confirmado`, `pedido_criado` and `pedido_status_atualizado`;
every envelope of any other `event_type` — including the spec's
`payment_updated` — fails with the unknown-event-type error rather than being
silently ignored.  `pagamento_confirmado` and `pedido_status_atualizado`
return the correspondingly-typed payload; the recognized `pedido_criado`
branch can never return a typed payload, because its item comprehension
evaluates the undefined name `ItemPedidoEvent`: with the order keys present
and a non-empty product list it raises `NameError`. -/
theorem C8_adaptar_evento_generico (tipo_evento : String) (data : EventData) :
    ((tipo_evento ≠ "pagamento_confirmado" ∧ tipo_evento ≠ "pedido_criado" ∧
      tipo_evento ≠ "pedido_status_atualizado") ↔
      adaptar_evento_generico tipo_evento data =
        .error (.unknownEventType tipo_evento)) ∧
    (∀ r, adaptar_evento_generico tipo_evento data = .ok r →
      r.1 = tipo_evento ∧ tipo_evento ≠ "pedido_criado" ∧
      (tipo_evento = "pagamento_confirmado" → r.2.kind = "pagamento") ∧
      (tipo_evento = "pedido_status_atualizado" → r.2.kind = "statusAtualizado")) ∧
    (tipo_evento = "pedido_criado" →
      ∀ (id_pedido : Nat) (cliente : String) (p : ProdutoData) (ps : List ProdutoData),
      data.id_pedido = some id_pedido → data.cliente = some cliente →
      data.produtos = some (p :: ps) →
      adaptar_evento_generico tipo_evento data =
        .error (.nameError "ItemPedidoEvent")) := by
  by_cases h1 : tipo_evento = "pagamento_confirmado"
  · subst h1
    have hmatch : adaptar_evento_generico "pagamento_confirmado" data =
        (match adaptar_pagamento_confirmado data with
          | .error e => .error e
          | .ok ev => .ok ("pagamento_confirmado", ev)) := by
      simp [adaptar_evento_generico]
    refine ⟨⟨fun h => absurd rfl h.1, fun heq => ?_⟩, fun r heq => ?_,
      fun hx => absurd hx (by decide)⟩
    · rcases adaptar_pagamento_shape data with ⟨e, hs⟩ | ⟨c, hs⟩ | ⟨v, hs⟩ <;>
        rw [hs] at hmatch <;> rw [hmatch] at heq
      · exact Except.noConfusion heq
      · injection heq with h
        exact AdapterError.noConfusion h
      · injection heq with h
        exact AdapterError.noConfusion h
    · rcases adaptar_pagamento_shape data with ⟨e, hs⟩ | ⟨c, hs⟩ | ⟨v, hs⟩ <;>
        rw [hs] at hmatch <;> rw [hmatch] at heq
      · injection heq with hp
        subst hp
        exact ⟨rfl, by decide, fun _ => rfl, fun hx => absurd hx (by decide)⟩
      · exact Except.noConfusion heq
      · exact Except.noConfusion heq
  by_cases h2 : tipo_evento = "pedido_criado"
  · subst h2
    have hmatch : adaptar_evento_generico "pedido_criado" data =
        (match adaptar_pedido_criado data with
          | .error e => .error e
          | .ok ev => .ok ("pedido_criado", ev)) := by
      simp [adaptar_evento_generico]
    refine ⟨⟨fun h => absurd rfl h.2.1, fun heq => ?_⟩, fun r heq => ?_,
      fun _ id_pedido cliente p ps hip hcl hpr => ?_⟩
    · rcases adaptar_pedido_shape data with ⟨c, hs⟩ | hs | ⟨v, hs⟩ | ⟨m, hs⟩ <;>
        rw [hs] at hmatch <;> rw [hmatch] at heq <;>
        injection heq with h <;> exact AdapterError.noConfusion h
    · rcases adaptar_pedido_shape data with ⟨c, hs⟩ | hs | ⟨v, hs⟩ | ⟨m, hs⟩ <;>
        rw [hs] at hmatch <;> rw [hmatch] at heq <;> exact Except.noConfusion heq
    · have hb : adaptar_pedido_criado data = .error (.nameError "ItemPedidoEvent") := by
        simp only [adaptar_pedido_criado, hip, hcl, hpr]
      rw [hb] at hmatch
      rw [hmatch]
  by_cases h3 : tipo_evento = "pedido_status_atualizado"
  · subst h3
    have hmatch : adaptar_evento_generico "pedido_status_atualizado" data =
        (match adaptar_pedido_status_atualizado data with
          | .error e => .error e
          | .ok ev => .ok ("pedido_status_atualizado", ev)) := by
      simp [adaptar_evento_generico]
    refine ⟨⟨fun h => absurd rfl h.2.2, fun heq => ?_⟩, fun r heq => ?_,
      fun hx => absurd hx (by decide)⟩
    · rcases adaptar_status_shape data with ⟨i, stt, att, hs⟩ | ⟨c, hs⟩ | ⟨v, hs⟩ <;>
        rw [hs] at hmatch <;> rw [hmatch] at heq
      · exact Except.noConfusion heq
      · injection heq with h
        exact AdapterError.noConfusion h
      · injection heq with h
        exact AdapterError.noConfusion h
    · rcases adaptar_status_shape data with ⟨i, stt, att, hs⟩ | ⟨c, hs⟩ | ⟨v, hs⟩ <;>
        rw [hs] at hmatch <;> rw [hmatch] at heq
      · injection heq with hp
        subst hp
        exact ⟨rfl, by decide, fun hx => absurd hx (by decide), fun _ => rfl⟩
      · exact Except.noConfusion heq
      · exact Except.noConfusion heq
  · have hres : adaptar_evento_generico tipo_evento data =
        .error (.unknownEventType tipo_evento) := by
      simp [adaptar_evento_generico, h1, h2, h3]
    refine ⟨⟨fun _ => hres, fun _ => ⟨h1, h2, h3⟩⟩, fun r heq => ?_,
      fun hx => absurd hx h2⟩
    rw [hres] at heq
    exact Except.noConfusion heq

/-- Witness for C8 (amended): a concrete unrecognized envelope type fails with
the unknown-event-type error, a concrete well-formed `pagamento_confirmado`
envelope yields a typed payment event, and a concrete well-formed
`pedido_criado` envelope with one product fails with the `NameError` on
`ItemPedidoEvent`. -/
theorem C8_adaptar_evento_generico_witness :
    adaptar_evento_generico "evento_invalido" samplePagamentoData =
      .error (.unknownEventType "evento_invalido") ∧
    (exceptOk (adaptar_evento_generico "pagamento_confirmado"
      samplePagamentoData)).map (fun r => r.2.kind) = some "pagamento" ∧
    adaptar_evento_generico "pedido_criado" samplePedidoData =
      .error (.nameError "ItemPedidoEvent") := by
  refine ⟨?_, ?_, ?_⟩
  · exact (C8_adaptar_evento_generico "evento_invalido" samplePagamentoData).1.mp
      (by refine ⟨?_, ?_, ?_⟩ <;> decide)
  · have h := ((C8_adaptar_evento_generico "pagamento_confirmado" samplePagamentoData).2.1
      ("pagamento_confirmado", .pagamento ⟨1, 10, .PAGO, ⟨"2025-07-28T12:00:00"⟩⟩)
      rfl).2.2.1 rfl
    rw [show adaptar_evento_generico "pagamento_confirmado" samplePagamentoData =
      .ok ("pagamento_confirmado",
        .pagamento ⟨1, 10, .PAGO, ⟨"2025-07-28T12:00:00"⟩⟩) from rfl]
    simpa [exceptOk] using h
  · exact (C8_adaptar_evento_generico "pedido_criado" samplePedidoData).2.2 rfl
      123 "12345678900" ⟨1, some 2, 10.0⟩ [] rfl rfl rfl

/-- Witness for C10: on the empty store, the concrete payment event for
order 7 produces the HTTP 500 response. -/
theorem C10_endpoint_pagamento_sem_registro_witness :
    (endpoint_processar_evento_pagamento ⟨"t1"⟩ ⟨[]⟩ samplePagamento).1 =
      .httpError 500 "Erro ao processar evento de pagamento: AttributeError" := by
  exact (C10_endpoint_pagamento_sem_registro ⟨"t1"⟩ ⟨[]⟩ samplePagamento rfl).1

end Acomp
